import Mathlib

/-!
Verification of the learning-roadmap generation pipeline
(`app/infrastructure/agents/`: `orchestrator_agent.py`, `research_agent.py`,
`roadmap_agent.py`, `state.py`, `graph.py`).

The Python code is shallowly embedded: external collaborators (the completion
LLM, the Tavily search client, the static keyword files) are oracles passed as
explicit arguments; `json.loads` and the three `re.search` patterns used by the
agents are modelled by executable Lean functions over `List Char`.
-/

namespace Roadmap

/-- JSON values as returned by Python's `json.loads`.

Numbers are represented in exact decimal form as `m * 10 ^ e` with the
invariant (maintained by the parser) that `m` is not divisible by 10 unless it
is 0, and `e = 0` when `m = 0`; this makes Python's cross-type numeric
equality (`1 == 1.0`) structural.  Objects are association lists in insertion
order with unique keys (duplicate keys in the source text keep the first
position and the last value, as in CPython).  The non-standard
`NaN`/`Infinity` extensions of Python's decoder are not modelled. -/
inductive Json where
  | null : Json
  | bool (b : Bool) : Json
  | num (m : Int) (e : Int) : Json
  | str (s : String) : Json
  | arr (xs : List Json) : Json
  | obj (kvs : List (String × Json)) : Json
deriving Repr

/-- The character `\x7b` (left brace), kept out of string literals. -/
def lbrace : Char := Char.ofNat 123

/-- The character `\x7d` (right brace). -/
def rbrace : Char := Char.ofNat 125

/-- The backquote character that delimits fenced code blocks. -/
def btick : Char := Char.ofNat 96

/-- Python truthiness (`bool(x)`) of a JSON value: empty containers, empty
strings, zero and `None`/`False` are falsy. -/
def Json.truthy : Json → Bool
  | .null => false
  | .bool b => b
  | .num m _ => m != 0
  | .str s => !s.isEmpty
  | .arr xs => !xs.isEmpty
  | .obj kvs => !kvs.isEmpty

/-- Whether a JSON value is an object (a Python `dict`). -/
def Json.isObj : Json → Bool
  | .obj _ => true
  | _ => false

/-- The Python type name of a JSON value, as it appears in dynamic-type error
messages (`int` is used for all numbers; the embedding does not distinguish
`int` from `float`). -/
def Json.pyType : Json → String
  | .null => "NoneType"
  | .bool _ => "bool"
  | .num _ _ => "int"
  | .str _ => "str"
  | .arr _ => "list"
  | .obj _ => "dict"

/-- Python's `==` on two decoded JSON values, bounded by fuel.  It is
structural except on objects, which compare as Python `dict`s: same key set
(keys are unique in decoded objects) and equal values key-by-key, regardless
of insertion order.  Numbers are stored normalized, so `1 == 1.0` holds
structurally.  The fuel only bounds the recursion depth: every call site
passes at least `n + 1` where `n` is the length of the text the deeper value
was decoded from, and a value decoded from `n` characters nests fewer than
`n + 1` levels, so the bound is never hit on a deciding path. -/
def pyEqFuel : Nat → Json → Json → Bool
  | 0, _, _ => false
  | _ + 1, .null, .null => true
  | _ + 1, .bool a, .bool b => a == b
  | _ + 1, .num m e, .num m' e' => m == m' && e == e'
  | _ + 1, .str a, .str b => a == b
  | f + 1, .arr xs, .arr ys =>
      xs.length == ys.length && (xs.zip ys).all fun p => pyEqFuel f p.1 p.2
  | f + 1, .obj xs, .obj ys =>
      xs.length == ys.length &&
        xs.all fun p =>
          match ys.lookup p.1 with
          | some w => pyEqFuel f p.2 w
          | none => false
  | _ + 1, _, _ => false

/-! ### A model of Python's `json.loads`

Executable decoder for the JSON grammar accepted by `json.loads` in its
default strict mode (insignificant whitespace is space/tab/LF/CR; object keys
are strings; literal control characters inside strings are rejected; leading
zeros in numbers are rejected).  Python-specific details that the agents rely
on are preserved: duplicate object keys keep the first position and the last
value, and `loads` requires the whole input to be a single document.  The
non-standard `NaN`/`Infinity` literals and float overflow to `inf` are not
modelled; `\u` escapes that decode to lone surrogates fall back to `\x00`
(Lean `Char` cannot carry surrogates). -/

/-- JSON insignificant whitespace (Python `json` only skips these four). -/
def jsonWs (c : Char) : Bool := c = ' ' || c = '\t' || c = '\n' || c = '\r'

/-- Drop leading JSON whitespace. -/
def skipWs (cs : List Char) : List Char := cs.dropWhile jsonWs

/-- Value of a hexadecimal digit. -/
def hexVal (c : Char) : Option Nat :=
  if '0' ≤ c ∧ c ≤ '9' then some (c.toNat - 48)
  else if 'a' ≤ c ∧ c ≤ 'f' then some (c.toNat - 87)
  else if 'A' ≤ c ∧ c ≤ 'F' then some (c.toNat - 55)
  else none

/-- Numeric value of a list of decimal digits. -/
def natOfDigits (ds : List Char) : Nat :=
  ds.foldl (fun n c => n * 10 + (c.toNat - 48)) 0

/-- Decode the body of a JSON string literal (the opening quote has been
consumed), processing escape sequences, combining `\u` surrogate pairs, and
rejecting raw control characters as the strict decoder does. -/
def parseStrL : Nat → List Char → List Char → Option (String × List Char)
  | 0, _, _ => none
  | _ + 1, [], _ => none
  | f + 1, c :: rest, acc =>
    if c = '"' then some (String.mk acc.reverse, rest)
    else if c = '\\' then
      match rest with
      | [] => none
      | e :: rest2 =>
        if e = '"' then parseStrL f rest2 ('"' :: acc)
        else if e = '\\' then parseStrL f rest2 ('\\' :: acc)
        else if e = '/' then parseStrL f rest2 ('/' :: acc)
        else if e = 'b' then parseStrL f rest2 (Char.ofNat 8 :: acc)
        else if e = 'f' then parseStrL f rest2 (Char.ofNat 12 :: acc)
        else if e = 'n' then parseStrL f rest2 ('\n' :: acc)
        else if e = 'r' then parseStrL f rest2 ('\r' :: acc)
        else if e = 't' then parseStrL f rest2 ('\t' :: acc)
        else if e = 'u' then
          match rest2 with
          | a :: b :: c1 :: d :: rest3 =>
            match hexVal a, hexVal b, hexVal c1, hexVal d with
            | some x, some y, some z, some w =>
              let n := ((x * 16 + y) * 16 + z) * 16 + w
              if 0xD800 ≤ n ∧ n ≤ 0xDBFF then
                match rest3 with
                | s1 :: s2 :: a2 :: b2 :: c2 :: d2 :: rest4 =>
                  match hexVal a2, hexVal b2, hexVal c2, hexVal d2 with
                  | some x2, some y2, some z2, some w2 =>
                    let n2 := ((x2 * 16 + y2) * 16 + z2) * 16 + w2
                    if s1 = '\\' ∧ s2 = 'u' ∧ 0xDC00 ≤ n2 ∧ n2 ≤ 0xDFFF then
                      let cp := 0x10000 + (n - 0xD800) * 0x400 + (n2 - 0xDC00)
                      parseStrL f rest4 (Char.ofNat cp :: acc)
                    else parseStrL f rest3 (Char.ofNat n :: acc)
                  | _, _, _, _ => parseStrL f rest3 (Char.ofNat n :: acc)
                | _ => parseStrL f rest3 (Char.ofNat n :: acc)
              else parseStrL f rest3 (Char.ofNat n :: acc)
            | _, _, _, _ => none
          | _ => none
        else none
    else if c.toNat < 32 then none
    else parseStrL f rest (c :: acc)

/-- Strip trailing decimal zeros from a mantissa, moving them into the
exponent (fuel-bounded; the fuel exceeds the number of digits). -/
def stripZeros : Nat → Int → Int → Int × Int
  | 0, m, e => (m, e)
  | f + 1, m, e => if m ≠ 0 ∧ m % 10 = 0 then stripZeros f (m / 10) (e + 1) else (m, e)

/-- Build a normalized `Json.num` from sign, integer digits, fraction digits
and decimal exponent. -/
def mkNum (neg : Bool) (ipart : Nat) (fds : List Char) (ex : Int) : Json :=
  let mAbs : Nat := ipart * 10 ^ fds.length + natOfDigits fds
  let m0 : Int := if neg then -(mAbs : Int) else (mAbs : Int)
  let p := stripZeros (fds.length + ipart.succ) m0 (ex - fds.length)
  if p.1 = 0 then .num 0 0 else .num p.1 p.2

/-- Decode the optional fraction part (`.` followed by at least one digit);
returns the fraction digits and the rest, consuming nothing on mismatch. -/
def parseFrac (cs : List Char) : List Char × List Char :=
  match cs with
  | '.' :: r =>
    let p := r.span Char.isDigit
    if p.1.isEmpty then ([], cs) else (p.1, p.2)
  | _ => ([], cs)

/-- Decode the optional exponent part (`e`/`E`, optional sign, digits);
returns the signed exponent and the rest, consuming nothing on mismatch. -/
def parseExp (cs : List Char) : Int × List Char :=
  match cs with
  | e :: r =>
    if e = 'e' ∨ e = 'E' then
      match r with
      | '+' :: r2 =>
        let p := r2.span Char.isDigit
        if p.1.isEmpty then (0, cs) else ((natOfDigits p.1 : Int), p.2)
      | '-' :: r2 =>
        let p := r2.span Char.isDigit
        if p.1.isEmpty then (0, cs) else (-(natOfDigits p.1 : Int), p.2)
      | r2 =>
        let p := r2.span Char.isDigit
        if p.1.isEmpty then (0, cs) else ((natOfDigits p.1 : Int), p.2)
    else (0, cs)
  | [] => (0, cs)

/-- Decode a JSON number (`-? (0 | [1-9][0-9]*) frac? exp?`). -/
def parseNum (cs : List Char) : Option (Json × List Char) :=
  let sp : Bool × List Char := match cs with | '-' :: r => (true, r) | _ => (false, cs)
  match sp.2 with
  | '0' :: r =>
    let fr := parseFrac r
    let ep := parseExp fr.2
    some (mkNum sp.1 0 fr.1 ep.1, ep.2)
  | c :: r =>
    if c.isDigit then
      let p := (c :: r).span Char.isDigit
      let fr := parseFrac p.2
      let ep := parseExp fr.2
      some (mkNum sp.1 (natOfDigits p.1) fr.1 ep.1, ep.2)
    else none
  | [] => none

/-- Insert a key into a decoded object the way CPython's `dict` does during
decoding: a duplicate key keeps its first position and takes the last value. -/
def insertKV (kvs : List (String × Json)) (k : String) (v : Json) :
    List (String × Json) :=
  match kvs with
  | [] => [(k, v)]
  | (k', v') :: rest =>
    if k' = k then (k', v) :: rest else (k', v') :: insertKV rest k v

/-- What the recursive decoder is currently parsing: a single value, the
items of an array, or the members of an object. -/
inductive PTask where
  | value : PTask
  | items (acc : List Json) : PTask
  | members (acc : List (String × Json)) : PTask

/-- Fuel-bounded recursive descent over the JSON grammar (the fuel bounds the
parse-tree depth, which the callers' `length + 8` always covers). -/
def parseStep : Nat → PTask → List Char → Option (Json × List Char)
  | 0, _, _ => none
  | f + 1, .value, cs =>
    match cs with
    | [] => none
    | c :: rest =>
      if c = lbrace then
        match skipWs rest with
        | c2 :: rest2 =>
          if c2 = rbrace then some (.obj [], rest2)
          else parseStep f (.members []) (c2 :: rest2)
        | [] => none
      else if c = '[' then
        match skipWs rest with
        | ']' :: rest2 => some (.arr [], rest2)
        | cs2 => parseStep f (.items []) cs2
      else if c = '"' then
        match parseStrL (rest.length + 1) rest [] with
        | some (s, rest2) => some (.str s, rest2)
        | none => none
      else
        match cs with
        | 't' :: 'r' :: 'u' :: 'e' :: rest2 => some (.bool true, rest2)
        | 'f' :: 'a' :: 'l' :: 's' :: 'e' :: rest2 => some (.bool false, rest2)
        | 'n' :: 'u' :: 'l' :: 'l' :: rest2 => some (.null, rest2)
        | _ => parseNum cs
  | f + 1, .items acc, cs =>
    match parseStep f .value cs with
    | none => none
    | some (v, rest) =>
      match skipWs rest with
      | ',' :: rest2 => parseStep f (.items (v :: acc)) (skipWs rest2)
      | ']' :: rest2 => some (.arr (v :: acc).reverse, rest2)
      | _ => none
  | f + 1, .members acc, cs =>
    match cs with
    | c :: rest =>
      if c = '"' then
        match parseStrL (rest.length + 1) rest [] with
        | none => none
        | some (k, rest2) =>
          match skipWs rest2 with
          | ':' :: rest3 =>
            match parseStep f .value (skipWs rest3) with
            | none => none
            | some (v, rest4) =>
              match skipWs rest4 with
              | ',' :: rest5 =>
                match skipWs rest5 with
                | c2 :: rest6 => parseStep f (.members (insertKV acc k v)) (c2 :: rest6)
                | [] => none
              | c2 :: rest5 =>
                if c2 = rbrace then some (.obj (insertKV acc k v), rest5) else none
              | [] => none
          | _ => none
      else none
    | [] => none

/-- Model of `json.loads` on a character list: decode one document and require
only whitespace to remain. -/
def loadsL (cs : List Char) : Option Json :=
  match parseStep (cs.length + 8) .value (skipWs cs) with
  | some (j, rest) => if (skipWs rest).isEmpty then some j else none
  | none => none

/-- Model of `json.loads`. -/
def loads (s : String) : Option Json := loadsL s.toList

/-! ### Models of the three `re.search` patterns

The agents use three patterns (`orchestrator_agent.py:272,288` and
`roadmap_agent.py:279,293,443`).  Each model mirrors `re.search`'s scan: try a
match at every start position from the left, and return the group of the
first position where the whole pattern matches.  `\s` is modelled by ASCII
whitespace (the patterns are only applied to LLM output, where non-ASCII
whitespace does not occur). -/

/-- Characters matched by `\s` (ASCII approximation). -/
def reWs (c : Char) : Bool :=
  c = ' ' || c = '\t' || c = '\n' || c = '\r' || c = Char.ofNat 11 || c = Char.ofNat 12

/-- Strip trailing `\s` characters. -/
def rstripWs (cs : List Char) : List Char := (cs.reverse.dropWhile reWs).reverse

/-- Whether the list starts with a triple-backquote fence. -/
def fenceHead (cs : List Char) : Bool := cs.take 3 = [btick, btick, btick]

/-- The characters of the optional `json` language tag. -/
def jsonTag : List Char := ['j', 's', 'o', 'n']

/-- Split at the first triple-backquote fence: returns the text before it and
the text after it, or `none` when no fence occurs. -/
def splitFence : List Char → Option (List Char × List Char)
  | [] => none
  | c :: rest =>
    if fenceHead (c :: rest) then some ([], (c :: rest).drop 3)
    else
      match splitFence rest with
      | some pr => some (c :: pr.1, pr.2)
      | none => none

/-- Group 1 of a match of ````(?:json)?\s*([\s\S]*?)\s*``` ` starting at a
given fence: consume the optional `json` tag and greedy leading whitespace;
the lazy group then ends at the first closing fence, with the whitespace run
before that fence going to the trailing `\s*`. -/
def fencedAttempt (after : List Char) : Option (List Char) :=
  let a1 := if after.take 4 = jsonTag then after.drop 4 else after
  let p := a1.dropWhile reWs
  match splitFence p with
  | some pr => some (rstripWs pr.1)
  | none => none

/-- Model of `re.search(r"```(?:json)?\s*([\s\S]*?)\s*```", s)`, group 1:
scan start positions left to right and return the first successful match's
group. -/
def fencedSearch : List Char → Option (List Char)
  | [] => none
  | c :: rest =>
    match (if fenceHead (c :: rest) then fencedAttempt ((c :: rest).drop 3) else none) with
    | some g => some g
    | none => fencedSearch rest

/-- Find the lazy end of the group `(\x7b[\s\S]*?\x7d)`: the first closing
brace that is followed by optional whitespace and a closing fence.  `acc`
holds the group characters consumed so far, reversed. -/
def braceLazyClose : List Char → List Char → Option (List Char)
  | [], _ => none
  | c :: rest, acc =>
    if c = rbrace ∧ fenceHead (rest.dropWhile reWs) then some ((c :: acc).reverse)
    else braceLazyClose rest (c :: acc)

/-- Group 1 of a match of ````(?:json)?\s*(\x7b[\s\S]*?\x7d)\s*``` ` starting
at a given fence: the group must begin with a left brace at the first
non-whitespace character after the tag. -/
def fencedBraceAttempt (after : List Char) : Option (List Char) :=
  let a1 := if after.take 4 = jsonTag then after.drop 4 else after
  match a1.dropWhile reWs with
  | c :: rest => if c = lbrace then braceLazyClose rest [c] else none
  | [] => none

/-- Model of `re.search(r"```(?:json)?\s*(\x7b[\s\S]*?\x7d)\s*```", s)`,
group 1 (the fenced-block fallback of the streaming parser). -/
def fencedSearchBrace : List Char → Option (List Char)
  | [] => none
  | c :: rest =>
    match (if fenceHead (c :: rest) then fencedBraceAttempt ((c :: rest).drop 3) else none) with
    | some g => some g
    | none => fencedSearchBrace rest

/-- Model of `re.search(r"\x7b[\s\S]*\x7d", s)`, group 0: the greedy span from
the first left brace to the last right brace after it (later start positions
can never succeed when this fails, matching the regex scan). -/
def braceSpan (cs : List Char) : Option (List Char) :=
  let s1 := cs.dropWhile fun c => c ≠ lbrace
  match s1 with
  | [] => none
  | _ :: _ =>
    match s1.reverse.dropWhile (fun c => c ≠ rbrace) with
    | [] => none
    | r :: rs => some ((r :: rs).reverse)

/-! ### The shared three-tier JSON extraction

`_parse_tags_response` (`orchestrator_agent.py:262-296`) and
`_parse_roadmap_response` (`roadmap_agent.py:269-300`) run the identical
sequence: (1) first fenced code block, (2) the whole response, (3) the greedy
first-brace-to-last-brace span; the first tier whose `json.loads` succeeds
wins. -/

/-- Tier 1: decode the first fenced code block's content. -/
def tier1 (s : String) : Option Json := (fencedSearch s.toList).bind loadsL

/-- Tier 2: decode the entire response. -/
def tier2 (s : String) : Option Json := loadsL s.toList

/-- Tier 3: decode the greedy `\x7b...\x7d` span. -/
def tier3 (s : String) : Option Json := (braceSpan s.toList).bind loadsL

/-- The three extraction tiers in their fixed priority order. -/
def threeTierExtract (s : String) : Option Json :=
  match tier1 s with
  | some j => some j
  | none =>
    match tier2 s with
    | some j => some j
    | none => tier3 s

/-- Python's `x.get(key, dflt)`: succeeds on objects (`dict`s) and raises
`AttributeError` on every other decoded value. -/
def pyDictGet (j : Json) (key : String) (dflt : Json) : Except String Json :=
  match j with
  | .obj kvs => .ok ((kvs.lookup key).getD dflt)
  | _ => .error ("'" ++ j.pyType ++ "' object has no attribute 'get'")

/-- `_parse_tags_response` (`orchestrator_agent.py:262-296`): run the three
tiers; on the first successful parse return `data.get("tags", [])`, which
raises when the parsed document is not an object; when all tiers fail return
the empty list. -/
def _parse_tags_response (s : String) : Except String Json :=
  match threeTierExtract s with
  | some d => pyDictGet d "tags" (.arr [])
  | none => .ok (.arr [])

/-- `_parse_roadmap_response` (`roadmap_agent.py:269-300`): run the three
tiers and return the first successfully parsed value, or the empty object
when all fail. -/
def _parse_roadmap_response (s : String) : Json :=
  (threeTierExtract s).getD (.obj [])

/-! ### The streaming incremental parser (`roadmap_agent.py:402-450`) -/

/-- The brace-counting scan of `_try_parse_partial_json`: walk the text with
a running (possibly negative) brace count; record the first left brace as the
span start; every position where the count returns to zero after the start
yields a candidate span from the start to that position, in scan order.
`acc` is `some` of the reversed characters accumulated since the start,
mirroring `start_idx`/`brace_count` of the Python loop. -/
def scanSpans : List Char → Int → Option (List Char) → List (List Char)
  | [], _, _ => []
  | c :: rest, count, acc =>
    if c = lbrace then
      scanSpans rest (count + 1) (some (c :: acc.getD []))
    else if c = rbrace then
      let acc' := acc.map fun l => c :: l
      if count - 1 = 0 ∧ acc.isSome then
        (acc'.getD []).reverse :: scanSpans rest (count - 1) acc'
      else scanSpans rest (count - 1) acc'
    else scanSpans rest count (acc.map fun l => c :: l)

/-- Decode the first candidate span that parses (the Python loop `return`s on
the first `json.loads` success and keeps scanning on failure). -/
def firstParse : List (List Char) → Option Json
  | [] => none
  | s :: rest =>
    match loadsL s with
    | some j => some j
    | none => firstParse rest

/-- `_try_parse_partial_json` (`roadmap_agent.py:402-450`): first parsable
brace-balanced span from the first left brace; then the entire buffer; then
the fenced-block pattern; the empty object on total failure. -/
def _try_parse_partial_json (s : String) : Json :=
  match firstParse (scanSpans s.toList 0 none) with
  | some j => j
  | none =>
    match loadsL s.toList with
    | some j => j
    | none =>
      match (fencedSearchBrace s.toList).bind loadsL with
      | some j => j
      | none => .obj []

/-! ### Shared state plumbing -/

/-- Python's `x or default` on an optional diagnostic string: the default is
used when the field is absent (`None`) or empty (falsy). -/
def pyOrStr (e : Option String) (d : String) : String :=
  match e with
  | some s => if s.isEmpty then d else s
  | none => d

/-- `TechnologyContext` (`state.py:13-42`); a link is a `(title, url)` pair. -/
structure TechnologyContext where
  name : String
  summary : String
  links : List (String × String)
deriving Repr, DecidableEq

/-- A sub-tag record as built by `_extract_sub_tags`
(`orchestrator_agent.py:344-353`).  `word`, `description` and
`relevance_level` are stored exactly as found in the keyword file (Python
performs no type check on them), hence `Json`-typed. -/
structure SubTag where
  word : Json
  description : Json
  relevance_level : Json
  technology : String
deriving Repr

/-- One Tavily search result (`title`/`url`/`content` fields used by
`_research_technology`). -/
structure SearchResult where
  title : String
  url : String
  content : String
deriving Repr, DecidableEq

/-- A Tavily search response: the optional synthesized `answer` (absent is
modelled as the empty string, which is equivalent under the truthiness checks
applied to it) and the ranked `results`. -/
structure SearchResponse where
  answer : String
  results : List SearchResult
deriving Repr, DecidableEq

/-! ### Orchestrator agent (`orchestrator_agent.py`) -/

/-- The partial state update returned by the orchestrator node.  `sub_tags`
is `none` when the returned dictionary omits the key (the failure branches),
in which case the merge leaves the state's field unchanged. -/
structure OrchDelta where
  tags : List String
  sub_tags : Option (List SubTag)
  error : Option String
  current_agent : String
deriving Repr

/-- Python's `str.lower()` (ASCII case mapping; the tags this is applied to
are ASCII technology names). -/
def strLower (s : String) : String := String.mk (s.toList.map Char.toLower)

/-- The filename stem `technology.lower().replace(".", "").replace(" ", "_")`
(`orchestrator_agent.py:314`), also the stem of the first candidate key:
lower-case, remove dots, turn spaces into underscores. -/
def normKey (technology : String) : String :=
  String.mk (((technology.toList.map Char.toLower).filter fun c => c ≠ '.').map
    fun c => if c = ' ' then '_' else c)

/-- The candidate key names tried against a keyword file, in order
(`orchestrator_agent.py:327-332`). -/
def keyCandidates (technology : String) : List String :=
  [normKey technology ++ "_keywords_with_details",
   strLower technology ++ "_keywords_with_details",
   "keywords_with_details",
   "keywords"]

/-- First candidate key present in the decoded file (`if key in data`,
taking `data[key]` even if that value is empty). -/
def firstKeyIn (kvs : List (String × Json)) : List String → Option Json
  | [] => none
  | k :: rest =>
    match kvs.lookup k with
    | some v => some v
    | none => firstKeyIn kvs rest

/-- Python's `kw.get("relevance_level", 0) >= 4`: defined for numbers (and
booleans, which compare as 0/1), a `TypeError` (`none`) otherwise. -/
def relevanceGE4 : Json → Option Bool
  | .num m e =>
    some (if 0 ≤ e then decide (4 ≤ m * (10 : Int) ^ e.toNat)
          else decide (4 * (10 : Int) ^ (-e).toNat ≤ m))
  | .bool _ => some false
  | _ => none

/-- The sub-tag dictionary built for one keyword record
(`orchestrator_agent.py:345-350`). -/
def mkSubTag (technology : String) (kvs : List (String × Json)) : SubTag :=
  { word := (kvs.lookup "word").getD (.str "")
    description := (kvs.lookup "description").getD (.str "")
    relevance_level := (kvs.lookup "relevance_level").getD (.num 0 0)
    technology := technology }

/-- The keyword list comprehension (`orchestrator_agent.py:344-353`): keep
records whose relevance level is at least 4.  Any record that is not a
dictionary, or whose relevance level does not compare with an integer, raises
inside the comprehension (`none` here), which the enclosing handler turns
into an empty result. -/
def extractKws (technology : String) : List Json → Option (List SubTag)
  | [] => some []
  | .obj kvs :: rest =>
    match relevanceGE4 ((kvs.lookup "relevance_level").getD (.num 0 0)) with
    | none => none
    | some ge =>
      match extractKws technology rest with
      | none => none
      | some tl => some (if ge then mkSubTag technology kvs :: tl else tl)
  | _ :: _ => none

/-- `_extract_sub_tags` (`orchestrator_agent.py:299-364`).  The static
keyword directory is the oracle `files`, mapping a filename to the decoded
content of that JSON file.  Every exception raised while reading or
filtering is caught by the function's handler and yields `[]`. -/
def _extract_sub_tags (files : List (String × Json)) (technology : String) : List SubTag :=
  match files.lookup (normKey technology ++ ".json") with
  | none => []
  | some (.obj kvs) =>
    match firstKeyIn kvs (keyCandidates technology) with
    | none => []
    | some kwData =>
      if !kwData.truthy then []
      else
        match kwData with
        | .arr kws => (extractKws technology kws).getD []
        | _ => []
  | some _ => []

/-- Iterate a decoded `tags` value as `for tag in tags` does, requiring each
element to be a string (the first use of an element is `technology.lower()`
inside `_extract_sub_tags`): lists yield their elements, strings their
characters, dictionaries their keys; other values are not iterable.  The
state's `tags` entry is modelled by this iteration sequence. -/
def pyIterStrs : Json → Except String (List String)
  | .arr xs =>
    xs.mapM fun x =>
      match x with
      | .str s => Except.ok s
      | other => Except.error ("'" ++ other.pyType ++ "' object has no attribute 'lower'")
  | .str s => .ok (s.toList.map fun c => String.mk [c])
  | .obj kvs => .ok (kvs.map fun p => p.1)
  | other => .error ("'" ++ other.pyType ++ "' object is not iterable")

/-- `orchestrator_agent` (`orchestrator_agent.py:182-259`).  The completion
call (`get_llm()` plus `llm.ainvoke`) is the oracle `llm`: `Except.error`
models an exception from either, `Except.ok` the response text. -/
def orchestrator_agent (user_input : String) (llm : Except String String)
    (files : List (String × Json)) : OrchDelta :=
  if user_input.isEmpty then
    ⟨[], none, some "No user input provided", "orchestrator"⟩
  else
    match llm with
    | .error e => ⟨[], none, some ("Orchestrator agent error: " ++ e), "orchestrator"⟩
    | .ok response_text =>
      match _parse_tags_response response_text with
      | .error e => ⟨[], none, some ("Orchestrator agent error: " ++ e), "orchestrator"⟩
      | .ok tagsJson =>
        if !tagsJson.truthy then
          ⟨[], none, some "Failed to extract tags from user input", "orchestrator"⟩
        else
          match pyIterStrs tagsJson with
          | .error e => ⟨[], none, some ("Orchestrator agent error: " ++ e), "orchestrator"⟩
          | .ok tags =>
            ⟨tags, some (tags.map (_extract_sub_tags files)).flatten, none, "orchestrator"⟩

/-! ### Research agent (`research_agent.py`) -/

/-- The partial state update returned by the research node. -/
structure ResearchDelta where
  context : List TechnologyContext
  error : Option String
  current_agent : String
deriving Repr, DecidableEq

/-- `_research_technology` (`research_agent.py:99-149`) applied to the search
response: prefer the synthesized `answer`; otherwise, when results exist,
join the first 200 characters of the top 3 results' contents with spaces;
when the resulting summary is still falsy, use the generic placeholder.
Links are the `(title, url)` pairs of the first 5 results that have both a
non-empty title and a non-empty url. -/
def _research_technology (tag : String) (resp : SearchResponse) : TechnologyContext :=
  let summary0 := resp.answer
  let summary1 :=
    if summary0.isEmpty ∧ !resp.results.isEmpty then
      String.intercalate " " ((resp.results.take 3).map fun r => r.content.take 200)
    else summary0
  { name := tag
    summary := if summary1.isEmpty then tag ++ "に関するプログラミング技術の情報です。" else summary1
    links := ((resp.results.take 5).filter fun r => !r.title.isEmpty ∧ !r.url.isEmpty).map
      fun r => (r.title, r.url) }

/-- The joined results of the concurrent fan-out, in tag order.  The Tavily
call for the `i`-th tag is the oracle `search i tag`: `Except.error` models a
raised exception captured by `gather(..., return_exceptions=True)`, and the
`zip(tags, results)` loop turns it into a placeholder context
(`research_agent.py:61-81`). -/
def researchSlots (search : Nat → String → Except String SearchResponse) :
    Nat → List String → List TechnologyContext
  | _, [] => []
  | i, t :: rest =>
    (match search i t with
     | .error m => ⟨t, "Research failed: " ++ m, []⟩
     | .ok resp => _research_technology t resp) :: researchSlots search (i + 1) rest

/-- `research_agent` (`research_agent.py:20-96`). -/
def research_agent (tags : List String) (stateError : Option String)
    (tavily_api_key : String) (search : Nat → String → Except String SearchResponse) :
    ResearchDelta :=
  if tags.isEmpty then
    ⟨[], some (pyOrStr stateError "No tags to research"), "research"⟩
  else if tavily_api_key.isEmpty then
    ⟨[], some "Tavily API key not configured", "research"⟩
  else
    ⟨researchSlots search 0 tags, none, "research"⟩

/-! ### Roadmap agent, batch and streaming (`roadmap_agent.py`) -/

/-- The partial state update returned by the roadmap node. -/
structure RoadmapDelta where
  roadmap_json : Json
  error : Option String
  current_agent : String
deriving Repr

/-- The expression `len(roadmap_json.get("technologies", []))` evaluated on
the parsed response (`roadmap_agent.py:140,382`): raises `AttributeError` on
a non-dictionary parse and `TypeError` when the `technologies` value has no
length. -/
def technologiesLen (j : Json) : Except String Nat :=
  match j with
  | .obj kvs =>
    match (kvs.lookup "technologies").getD (.arr []) with
    | .arr xs => .ok xs.length
    | .str s => .ok s.length
    | .obj kvs2 => .ok kvs2.length
    | v => .error ("object of type '" ++ v.pyType ++ "' has no len()")
  | _ => .error ("'" ++ j.pyType ++ "' object has no attribute 'get'")

/-- `roadmap_agent` (`roadmap_agent.py:88-154`), batch mode. -/
def roadmap_agent (context : List TechnologyContext) (stateError : Option String)
    (llm : Except String String) : RoadmapDelta :=
  if context.isEmpty then
    ⟨.obj [], some (pyOrStr stateError "No technology context available"), "roadmap"⟩
  else
    match llm with
    | .error e => ⟨.obj [], some ("Roadmap agent error: " ++ e), "roadmap"⟩
    | .ok response_text =>
      let roadmap_json := _parse_roadmap_response response_text
      if !roadmap_json.truthy then
        ⟨.obj [], some "Failed to parse roadmap JSON", "roadmap"⟩
      else
        match technologiesLen roadmap_json with
        | .error e => ⟨.obj [], some ("Roadmap agent error: " ++ e), "roadmap"⟩
        | .ok _ => ⟨roadmap_json, none, "roadmap"⟩

/-- An event yielded by `roadmap_agent_stream`
(`roadmap_agent.py:313-317`); the `complete` flag of the wire format is
carried by the choice between `progress` and `complete`. -/
inductive StreamEvent where
  | chunk (content : String) : StreamEvent
  | progress (roadmap : Json) : StreamEvent
  | complete (roadmap : Json) : StreamEvent
  | error (message : String) : StreamEvent
deriving Repr

/-- The chunk-consuming loop of `roadmap_agent_stream`
(`roadmap_agent.py:348-368`): every chunk's text is appended to the buffer
and yielded; the incremental parse of the grown buffer is yielded as a
`progress` event exactly when it is truthy and differs (Python `!=`) from
the last emitted snapshot.  The equality fuel `length + 1` strictly bounds
the nesting depth of both decoded snapshots. -/
def streamLoop : List String → String → Json → List StreamEvent
  | [], _, _ => []
  | c :: rest, buffer, last =>
    let buffer' := buffer ++ c
    let p := _try_parse_partial_json buffer'
    if p.truthy ∧ !pyEqFuel (buffer'.length + 1) p last then
      .chunk c :: .progress p :: streamLoop rest buffer' p
    else
      .chunk c :: streamLoop rest buffer' last

/-- `roadmap_agent_stream` (`roadmap_agent.py:303-399`).  The streaming
completion call is the oracle `(chunks, exc)`: the chunk texts actually
delivered, and `some e` when the underlying generation (or its setup) raises
after delivering them — in which case the generator's handler yields a
terminal error event instead of parsing the buffer. -/
def roadmap_agent_stream (context : List TechnologyContext) (stateError : Option String)
    (chunks : List String) (exc : Option String) : List StreamEvent :=
  if context.isEmpty then
    [.error (pyOrStr stateError "No technology context available")]
  else
    let evs := streamLoop chunks "" (.obj [])
    match exc with
    | some e => evs ++ [.error ("Roadmap agent error: " ++ e)]
    | none =>
      let final := _parse_roadmap_response (String.join chunks)
      if !final.truthy then evs ++ [.error "Failed to parse roadmap JSON from response"]
      else
        match technologiesLen final with
        | .error e => evs ++ [.error ("Roadmap agent error: " ++ e)]
        | .ok _ => evs ++ [.complete final]

/-! ### The linear workflow (`graph.py`, `state.py`) -/

/-- `AgentState` (`state.py:45-79`); the `messages` channel is not modelled
(no agent reads it). -/
structure AgentState where
  user_input : String
  tags : List String
  context : List TechnologyContext
  roadmap_json : Json
  error : Option String
  sub_tags : List SubTag
  current_agent : String
deriving Repr

/-- `create_initial_state` (`state.py:82-99`); `sub_tags` is absent from the
initial dictionary, so reads of it default to the empty list. -/
def create_initial_state (user_input : String) : AgentState :=
  ⟨user_input, [], [], .obj [], none, [], ""⟩

/-- Merge the orchestrator node's returned dictionary into the state
(LangGraph updates exactly the returned keys). -/
def applyOrch (s : AgentState) (d : OrchDelta) : AgentState :=
  { s with tags := d.tags, sub_tags := d.sub_tags.getD s.sub_tags,
           error := d.error, current_agent := d.current_agent }

/-- Merge the research node's returned dictionary into the state. -/
def applyResearch (s : AgentState) (d : ResearchDelta) : AgentState :=
  { s with context := d.context, error := d.error, current_agent := d.current_agent }

/-- Merge the roadmap node's returned dictionary into the state. -/
def applyRoadmap (s : AgentState) (d : RoadmapDelta) : AgentState :=
  { s with roadmap_json := d.roadmap_json, error := d.error, current_agent := d.current_agent }

/-- `run_roadmap_workflow` (`graph.py:49-71`): the compiled linear graph
`orchestrator → research → roadmap` threads the state through the three
nodes unconditionally. -/
def run_roadmap_workflow (user_input : String) (llm_tags : Except String String)
    (files : List (String × Json)) (tavily_api_key : String)
    (search : Nat → String → Except String SearchResponse)
    (llm_roadmap : Except String String) : AgentState :=
  let s0 := create_initial_state user_input
  let s1 := applyOrch s0 (orchestrator_agent user_input llm_tags files)
  let s2 := applyResearch s1 (research_agent s1.tags s1.error tavily_api_key search)
  applyRoadmap s2 (roadmap_agent s2.context s2.error llm_roadmap)

/-! ### Specification-side definitions

Definitions below are written from the specification's wording (not from the
source), for comparison with the embedded code. -/

/-- The roadmaps carried by the `progress` events of an event sequence. -/
def progressRoadmaps (evs : List StreamEvent) : List Json :=
  evs.filterMap fun e =>
    match e with
    | .progress j => some j
    | _ => none

/-- Whether an event is terminal (`complete` or `error`). -/
def isTerminalEv : StreamEvent → Bool
  | .complete _ => true
  | .error _ => true
  | _ => false

/-- The successive accumulated buffers seen by the incremental parser: one
per received chunk, each extending the previous by that chunk's text. -/
def prefixBuffers : String → List String → List String
  | _, [] => []
  | b, c :: rest => (b ++ c) :: prefixBuffers (b ++ c) rest

/-- The snapshot-deduplication rule of the specification (as amended): from
the incremental parses of the successive buffers, keep exactly those that are
truthy and differ by structural (value) equality from the previously kept
snapshot, starting from the empty object. -/
def dedupSnapshots : Json → List String → List Json
  | _, [] => []
  | last, buf :: rest =>
    let p := _try_parse_partial_json buf
    if p.truthy ∧ !pyEqFuel (buf.length + 1) p last then p :: dedupSnapshots p rest
    else dedupSnapshots last rest

/-- The single terminal event of a streaming run, as the specification
describes it once amended: the precondition error when no research context is
available; an error if the generation stream itself raised; otherwise the
parse of the full accumulated buffer — an error when it is falsy or when
counting its technologies raises, and the `complete` event otherwise. -/
def terminalEvent (context : List TechnologyContext) (stateError : Option String)
    (chunks : List String) (exc : Option String) : StreamEvent :=
  if context.isEmpty then .error (pyOrStr stateError "No technology context available")
  else
    match exc with
    | some e => .error ("Roadmap agent error: " ++ e)
    | none =>
      let final := _parse_roadmap_response (String.join chunks)
      if !final.truthy then .error "Failed to parse roadmap JSON from response"
      else
        match technologiesLen final with
        | .error e => .error ("Roadmap agent error: " ++ e)
        | .ok _ => .complete final

/-- Modelled from the claim's wording: the summary rule of the research
stage as the specification states it — the synthesized answer if non-empty,
otherwise the concatenated leading snippets of the top 3 results, and the
generic placeholder only when no results are supplied. -/
def claimedSummary (tag : String) (resp : SearchResponse) : String :=
  if !resp.answer.isEmpty then resp.answer
  else if !resp.results.isEmpty then
    String.intercalate " " ((resp.results.take 3).map fun r => r.content.take 200)
  else tag ++ "に関するプログラミング技術の情報です。"

/-- Modelled from the claim's wording: the lookup filename stem obtained by
lower-casing and stripping spaces and dots from the tag. -/
def claimedFileStem (technology : String) : String :=
  String.mk ((technology.toList.map Char.toLower).filter fun c => c ≠ '.' ∧ c ≠ ' ')

/-- A keyword record on which the comprehension cannot raise: a dictionary
whose relevance level (defaulting to 0) is numeric or boolean. -/
def cleanKw : Json → Bool
  | .obj kvs =>
    match (kvs.lookup "relevance_level").getD (.num 0 0) with
    | .num _ _ => true
    | .bool _ => true
    | _ => false
  | _ => false

/-- Whether a keyword record passes the `relevance_level >= 4` filter. -/
def kwGE4 : Json → Bool
  | .obj kvs => (relevanceGE4 ((kvs.lookup "relevance_level").getD (.num 0 0))).getD false
  | _ => false

/-- The sub-tag built from a keyword record (records that are not
dictionaries never reach this in the filtered path). -/
def mkSubTagJ (technology : String) : Json → SubTag
  | .obj kvs => mkSubTag technology kvs
  | _ => ⟨.str "", .str "", .num 0 0, technology⟩

/-! ### Theorems -/

/-- A non-empty string is not `isEmpty`. -/
theorem str_isEmpty_eq_false {s : String} (h : s ≠ "") : s.isEmpty = false := by
  cases hs : s.isEmpty with
  | false => rfl
  | true => exact absurd ((String.isEmpty_iff s).mp hs) h

/-- A non-empty list is not `isEmpty`. -/
theorem list_isEmpty_eq_false {α : Type} {l : List α} (h : l ≠ []) : l.isEmpty = false := by
  cases l with
  | nil => exact absurd rfl h
  | cons a t => rfl

/-- C7: for the empty request text, the orchestrator returns the
precondition error (empty tags plus the diagnostic) immediately; the result
is the same for every completion oracle, so the Completion Service is not
consulted, and no retry occurs. -/
theorem orchestrator_empty_input_short_circuit (llm : Except String String)
    (files : List (String × Json)) :
    orchestrator_agent "" llm files =
      ⟨[], none, some "No user input provided", "orchestrator"⟩ := rfl

/-- C10: when tag extraction fails terminally (error set, tags left empty),
the research stage re-emits the same diagnostic instead of overwriting it,
the synthesis stage does the same, and the final workflow state carries
exactly the diagnostic of that first failing stage. -/
theorem error_first_failure_preserved (user_input : String)
    (llm_tags : Except String String) (files : List (String × Json))
    (tavily_api_key : String) (search : Nat → String → Except String SearchResponse)
    (llm_roadmap : Except String String) (E : String)
    (htags : (orchestrator_agent user_input llm_tags files).tags = [])
    (herr : (orchestrator_agent user_input llm_tags files).error = some E)
    (hE : E ≠ "") :
    (research_agent [] (some E) tavily_api_key search).error = some E ∧
    (roadmap_agent [] (some E) llm_roadmap).error = some E ∧
    (run_roadmap_workflow user_input llm_tags files tavily_api_key search
        llm_roadmap).error = some E := by
  have hres : (research_agent [] (some E) tavily_api_key search).error = some E := by
    simp [research_agent, pyOrStr, str_isEmpty_eq_false hE]
  have hroad : (roadmap_agent [] (some E) llm_roadmap).error = some E := by
    simp [roadmap_agent, pyOrStr, str_isEmpty_eq_false hE]
  refine ⟨hres, hroad, ?_⟩
  simp only [run_roadmap_workflow, applyOrch, applyResearch, applyRoadmap,
    create_initial_state, htags, herr]
  simpa [applyResearch, hres] using hroad

/-- Witness for C10 at a concrete failing extraction (empty input). -/
theorem error_first_failure_preserved_witness :
    (research_agent [] (some "No user input provided") "k"
        (fun _ _ => Except.error "e")).error = some "No user input provided" ∧
    (roadmap_agent [] (some "No user input provided")
        (Except.ok "r")).error = some "No user input provided" ∧
    (run_roadmap_workflow "" (Except.ok "r") [] "k" (fun _ _ => Except.error "e")
        (Except.ok "r")).error = some "No user input provided" :=
  error_first_failure_preserved "" (Except.ok "r") [] "k" (fun _ _ => Except.error "e")
    (Except.ok "r") "No user input provided" rfl rfl (by decide)

/-- The joined fan-out list has one slot per tag. -/
theorem researchSlots_length (search : Nat → String → Except String SearchResponse) :
    ∀ (ts : List String) (i : Nat), (researchSlots search i ts).length = ts.length := by
  intro ts
  induction ts with
  | nil => intro i; rfl
  | cons hd tl ih => intro i; simp [researchSlots, ih]

/-- The `j`-th slot of the joined fan-out holds exactly the context built
from the `j`-th tag's own search outcome. -/
theorem researchSlots_getElem (search : Nat → String → Except String SearchResponse) :
    ∀ (ts : List String) (i j : Nat) (t : String), ts[j]? = some t →
      (researchSlots search i ts)[j]? =
        some (match search (i + j) t with
          | .error m => ⟨t, "Research failed: " ++ m, []⟩
          | .ok resp => _research_technology t resp) := by
  intro ts
  induction ts with
  | nil => intro i j t h; simp at h
  | cons hd tl ih =>
    intro i j t h
    cases j with
    | zero =>
      simp only [List.getElem?_cons_zero, Option.some.injEq] at h
      subst h
      simp [researchSlots]
    | succ j' =>
      simp only [List.getElem?_cons_succ] at h
      have h2 := ih (i + 1) j' t h
      simpa [researchSlots, Nat.add_assoc, Nat.add_comm 1 j'] using h2

/-- C1: for a non-empty tag list (and a configured search client), the
research stage returns no error and exactly one context entry per tag, in tag
order, regardless of which lookups raise: the `i`-th entry is the context
built from the `i`-th tag's outcome, and when that outcome is an exception
the entry has empty links and a summary stating the failure reason. -/
theorem research_fanout_isolation (tags : List String) (stateError : Option String)
    (tavily_api_key : String) (search : Nat → String → Except String SearchResponse)
    (htags : tags ≠ []) (hkey : tavily_api_key ≠ "") :
    (research_agent tags stateError tavily_api_key search).error = none ∧
    (research_agent tags stateError tavily_api_key search).context.length = tags.length ∧
    ∀ i t, tags[i]? = some t →
      (research_agent tags stateError tavily_api_key search).context[i]? =
        some (match search i t with
          | .error m => ⟨t, "Research failed: " ++ m, []⟩
          | .ok resp => _research_technology t resp) := by
  have h1 : tags.isEmpty = false := list_isEmpty_eq_false htags
  have h2 : tavily_api_key.isEmpty = false := str_isEmpty_eq_false hkey
  refine ⟨?_, ?_, ?_⟩
  · simp [research_agent, h1, h2]
  · simp [research_agent, h1, h2, researchSlots_length]
  · intro i t h
    have h3 := researchSlots_getElem search tags 0 i t h
    simpa [research_agent, h1, h2] using h3

/-- Witness for C1: tags `["React", "UnknownFrameworkXYZ"]`, where the first
lookup succeeds and the second raises. -/
theorem research_fanout_isolation_witness :
    (research_agent ["React", "UnknownFrameworkXYZ"] none "key"
        (fun i _ => if i = 0 then Except.ok ⟨"React is a library",
          [⟨"React docs", "https://react.dev", "c"⟩]⟩ else Except.error "boom")).error
      = none ∧
    (research_agent ["React", "UnknownFrameworkXYZ"] none "key"
        (fun i _ => if i = 0 then Except.ok ⟨"React is a library",
          [⟨"React docs", "https://react.dev", "c"⟩]⟩ else Except.error "boom")).context.length
      = 2 ∧
    (research_agent ["React", "UnknownFrameworkXYZ"] none "key"
        (fun i _ => if i = 0 then Except.ok ⟨"React is a library",
          [⟨"React docs", "https://react.dev", "c"⟩]⟩ else Except.error "boom")).context[1]?
      = some ⟨"UnknownFrameworkXYZ", "Research failed: boom", []⟩ := by
  have h := research_fanout_isolation ["React", "UnknownFrameworkXYZ"] none "key"
    (fun i _ => if i = 0 then Except.ok ⟨"React is a library",
      [⟨"React docs", "https://react.dev", "c"⟩]⟩ else Except.error "boom")
    (by decide) (by decide)
  refine ⟨h.1, h.2.1, ?_⟩
  have h3 := h.2.2 1 "UnknownFrameworkXYZ" rfl
  simpa using h3

/-- C3 (amended): the shared extraction tries the fenced block, then the
whole response, then the brace span, in that fixed order, the first
successful parse determining the result; each stage reports its extraction
error when all three tiers fail — and also when the successful parse is
falsy (empty), which is the amendment. -/
theorem three_tier_priority_spec :
    (∀ s j, tier1 s = some j → threeTierExtract s = some j) ∧
    (∀ s j, tier1 s = none → tier2 s = some j → threeTierExtract s = some j) ∧
    (∀ s j, tier1 s = none → tier2 s = none → tier3 s = some j →
      threeTierExtract s = some j) ∧
    (∀ s, tier1 s = none → tier2 s = none → tier3 s = none →
      threeTierExtract s = none) ∧
    (∀ context stateError s, context ≠ ([] : List TechnologyContext) →
      threeTierExtract s = none →
      (roadmap_agent context stateError (Except.ok s)).error =
        some "Failed to parse roadmap JSON") ∧
    (∀ user_input files s, user_input ≠ "" → threeTierExtract s = none →
      (orchestrator_agent user_input (Except.ok s) files).error =
        some "Failed to extract tags from user input") := by
  refine ⟨?_, ?_, ?_, ?_, ?_, ?_⟩
  · intro s j h
    simp [threeTierExtract, h]
  · intro s j h1 h2
    simp [threeTierExtract, h1, h2]
  · intro s j h1 h2 h3
    simp [threeTierExtract, h1, h2, h3]
  · intro s h1 h2 h3
    simp [threeTierExtract, h1, h2, h3]
  · intro ctx err s hctx hnone
    simp [roadmap_agent, list_isEmpty_eq_false hctx, _parse_roadmap_response, hnone,
      Json.truthy]
  · intro input files s hin hnone
    simp [orchestrator_agent, str_isEmpty_eq_false hin, _parse_tags_response, hnone,
      pyDictGet, Json.truthy]

/-- Witness for C3: a bare JSON object is picked up by tier 2, and a
response with no recoverable JSON makes the synthesis stage report its
extraction error. -/
theorem three_tier_priority_spec_witness :
    threeTierExtract "\x7b\"a\": 1\x7d" = some (Json.obj [("a", Json.num 1 0)]) ∧
    (roadmap_agent [⟨"React", "s", []⟩] none (Except.ok "plain text")).error =
      some "Failed to parse roadmap JSON" := by
  have h := three_tier_priority_spec
  exact ⟨h.2.1 "\x7b\"a\": 1\x7d" (Json.obj [("a", Json.num 1 0)]) rfl rfl,
    h.2.2.2.2.1 [⟨"React", "s", []⟩] none "plain text" (by decide) rfl⟩

/-- Counterexample for C3 as stated: on the response `"\x7b\x7d"` tier 2
succeeds (the whole response parses as the empty object), yet the synthesis
stage still reports its extraction error — so "only if all three fail does
the stage report an extraction error" is false. -/
theorem extraction_error_despite_parse_cex :
    tier2 "\x7b\x7d" = some (Json.obj []) ∧
    (roadmap_agent [⟨"React", "s", []⟩] none (Except.ok "\x7b\x7d")).error =
      some "Failed to parse roadmap JSON" :=
  ⟨rfl, rfl⟩

/-- Iterating a decoded list of strings yields exactly those strings. -/
theorem pyIterStrs_strings : ∀ ts : List String,
    pyIterStrs (Json.arr (ts.map Json.str)) = Except.ok ts := by
  intro ts
  induction ts with
  | nil => rfl
  | cons t rest ih =>
    simp only [pyIterStrs, List.map_cons, List.mapM_cons] at ih ⊢
    rw [ih]
    rfl

/-- C5 (amended): the tag extractor returns the parsed tag strings verbatim
and in parsed order — no fuzzy merging, no case normalization, and (the
amendment) no duplicate removal: the returned list is exactly the parsed
list, duplicates included. -/
theorem tags_verbatim_no_dedup (user_input : String) (files : List (String × Json))
    (s : String) (ts : List String) (hin : user_input ≠ "") (hts : ts ≠ [])
    (hparse : _parse_tags_response s = Except.ok (Json.arr (ts.map Json.str))) :
    (orchestrator_agent user_input (Except.ok s) files).tags = ts := by
  have hmap : ts.map Json.str ≠ [] := fun h => hts (by simpa using h)
  have htr : (Json.arr (ts.map Json.str)).truthy = true := by
    simp [Json.truthy, list_isEmpty_eq_false hmap]
  simp [orchestrator_agent, str_isEmpty_eq_false hin, hparse, htr, pyIterStrs_strings]

/-- Witness for C5 at a concrete parsed tag list. -/
theorem tags_verbatim_no_dedup_witness :
    (orchestrator_agent "learn React" (Except.ok "\x7b\"tags\": [\"React\", \"Next.js\"]\x7d")
        []).tags = ["React", "Next.js"] :=
  tags_verbatim_no_dedup "learn React" [] "\x7b\"tags\": [\"React\", \"Next.js\"]\x7d"
    ["React", "Next.js"] (by decide) (by decide) rfl

/-- Counterexample for C5 as stated: a parsed list with a repeated tag is
returned with the duplicate intact (the tag occurs twice, not exactly once). -/
theorem duplicate_tags_not_removed_cex :
    (orchestrator_agent "learn React"
        (Except.ok "\x7b\"tags\": [\"React\", \"React\"]\x7d") []).tags =
      ["React", "React"] ∧
    (orchestrator_agent "learn React"
        (Except.ok "\x7b\"tags\": [\"React\", \"React\"]\x7d") []).tags.count "React" = 2 :=
  ⟨rfl, by decide⟩

/-- C6 (amended): a successful parse whose tag list is empty or missing and
a response on which all three parse tiers fail produce the *same* stage
error, `"Failed to extract tags from user input"`; the code has no distinct
"no tags found" diagnostic, so callers cannot distinguish the two cases. -/
theorem empty_tags_same_error_as_parse_failure :
    (∀ user_input files s tagsJson, user_input ≠ "" →
      _parse_tags_response s = Except.ok tagsJson → tagsJson.truthy = false →
      (orchestrator_agent user_input (Except.ok s) files).error =
        some "Failed to extract tags from user input") ∧
    (∀ user_input files s, user_input ≠ "" → threeTierExtract s = none →
      (orchestrator_agent user_input (Except.ok s) files).error =
        some "Failed to extract tags from user input") := by
  constructor
  · intro input files s tagsJson hin hparse htr
    simp [orchestrator_agent, str_isEmpty_eq_false hin, hparse, htr]
  · intro input files s hin hnone
    simp [orchestrator_agent, str_isEmpty_eq_false hin, _parse_tags_response, hnone,
      pyDictGet, Json.truthy]

/-- Witness for C6: both the parsed-but-tagless response and the unparsable
response produce the same error message. -/
theorem empty_tags_same_error_as_parse_failure_witness :
    (orchestrator_agent "x" (Except.ok "\x7b\"reasoning\": \"r\"\x7d") []).error =
      some "Failed to extract tags from user input" ∧
    (orchestrator_agent "x" (Except.ok "no json at all") []).error =
      some "Failed to extract tags from user input" := by
  have h := empty_tags_same_error_as_parse_failure
  exact ⟨h.1 "x" [] "\x7b\"reasoning\": \"r\"\x7d" (Json.arr []) (by decide) rfl rfl,
    h.2 "x" [] "no json at all" (by decide) rfl⟩

/-- Counterexample for C6 as stated: the response `\x7b"reasoning": "r"\x7d`
parses successfully (tier 2) with no tags, while `"no json at all"` fails all
three tiers, yet the reported error is identical in both runs — there is no
distinct "no tags found in request" error. -/
theorem empty_tags_error_not_distinct_cex :
    threeTierExtract "\x7b\"reasoning\": \"r\"\x7d" =
      some (Json.obj [("reasoning", Json.str "r")]) ∧
    threeTierExtract "no json at all" = none ∧
    (orchestrator_agent "x" (Except.ok "\x7b\"reasoning\": \"r\"\x7d") []).error =
      some "Failed to extract tags from user input" ∧
    (orchestrator_agent "x" (Except.ok "no json at all") []).error =
      some "Failed to extract tags from user input" :=
  ⟨rfl, rfl, rfl, rfl⟩

/-- On a clean keyword record the relevance comparison succeeds and decides
the filter. -/
theorem clean_relevance (kvs : List (String × Json))
    (h : cleanKw (Json.obj kvs) = true) :
    relevanceGE4 ((kvs.lookup "relevance_level").getD (Json.num 0 0)) =
      some (kwGE4 (Json.obj kvs)) := by
  simp only [cleanKw] at h
  simp only [kwGE4]
  cases hv : (kvs.lookup "relevance_level").getD (Json.num 0 0) with
  | null => rw [hv] at h; simp at h
  | bool b => rfl
  | num m e => rfl
  | str s => rw [hv] at h; simp at h
  | arr xs => rw [hv] at h; simp at h
  | obj kvs2 => rw [hv] at h; simp at h

/-- On a list of clean keyword records the comprehension succeeds and keeps
exactly the records passing the relevance filter. -/
theorem extractKws_clean (technology : String) :
    ∀ kws : List Json, (∀ kw ∈ kws, cleanKw kw = true) →
      extractKws technology kws =
        some ((kws.filter kwGE4).map (mkSubTagJ technology)) := by
  intro kws
  induction kws with
  | nil => intro _; rfl
  | cons kw rest ih =>
    intro h
    have hkw := h kw (List.mem_cons_self kw rest)
    have ih2 := ih fun x hx => h x (List.mem_cons_of_mem kw hx)
    cases kw with
    | obj kvs =>
      have hb := clean_relevance kvs hkw
      simp only [extractKws, hb, ih2, List.filter_cons]
      cases hg : kwGE4 (Json.obj kvs) <;> simp [hg, mkSubTagJ]
    | null => exact absurd hkw (by simp [cleanKw])
    | bool b => exact absurd hkw (by simp [cleanKw])
    | num m e => exact absurd hkw (by simp [cleanKw])
    | str s => exact absurd hkw (by simp [cleanKw])
    | arr xs => exact absurd hkw (by simp [cleanKw])

/-- C8 (amended): sub-tag enrichment consults the static file named by the
tag lower-cased with dots removed and spaces replaced by underscores (the
amendment: spaces become underscores rather than being stripped); a missing
file contributes zero sub-tags without error, and a present file contributes
exactly the keywords of its first recognized key whose `relevance_level` is
at least 4. -/
theorem extract_sub_tags_spec :
    (∀ (files : List (String × Json)) technology,
      files.lookup (normKey technology ++ ".json") = none →
      _extract_sub_tags files technology = []) ∧
    (∀ (files : List (String × Json)) technology kvs kws,
      files.lookup (normKey technology ++ ".json") = some (Json.obj kvs) →
      firstKeyIn kvs (keyCandidates technology) = some (Json.arr kws) →
      (∀ kw ∈ kws, cleanKw kw = true) →
      _extract_sub_tags files technology =
        (kws.filter kwGE4).map (mkSubTagJ technology)) := by
  constructor
  · intro files tech h
    simp [_extract_sub_tags, h]
  · intro files tech kvs kws h1 h2 hclean
    cases kws with
    | nil => simp [_extract_sub_tags, h1, h2, Json.truthy]
    | cons kw rest =>
      simp [_extract_sub_tags, h1, h2, Json.truthy,
        extractKws_clean tech (kw :: rest) hclean]

/-- Witness for C8: a missing file yields no sub-tags, and a React keyword
file yields exactly its high-relevance keyword. -/
theorem extract_sub_tags_spec_witness :
    _extract_sub_tags [] "React" = [] ∧
    _extract_sub_tags
        [("react.json", Json.obj [("react_keywords_with_details", Json.arr
          [Json.obj [("word", Json.str "Hooks"), ("relevance_level", Json.num 4 0)],
           Json.obj [("word", Json.str "JSX"), ("relevance_level", Json.num 3 0)]])])]
        "React" =
      [⟨Json.str "Hooks", Json.str "", Json.num 4 0, "React"⟩] := by
  have h := extract_sub_tags_spec
  refine ⟨h.1 [] "React" rfl, ?_⟩
  have h2 := h.2
    [("react.json", Json.obj [("react_keywords_with_details", Json.arr
      [Json.obj [("word", Json.str "Hooks"), ("relevance_level", Json.num 4 0)],
       Json.obj [("word", Json.str "JSX"), ("relevance_level", Json.num 3 0)]])])]
    "React"
    [("react_keywords_with_details", Json.arr
      [Json.obj [("word", Json.str "Hooks"), ("relevance_level", Json.num 4 0)],
       Json.obj [("word", Json.str "JSX"), ("relevance_level", Json.num 3 0)]])]
    [Json.obj [("word", Json.str "Hooks"), ("relevance_level", Json.num 4 0)],
     Json.obj [("word", Json.str "JSX"), ("relevance_level", Json.num 3 0)]]
    rfl rfl (by decide)
  rw [h2]
  rfl

/-- Counterexample for C8 as stated: for the tag `"Spring Boot"` the code
consults `spring_boot.json` (spaces become underscores), not the claim's
`springboot.json` (spaces stripped); with a `springboot.json` file present
that carries a relevance-5 keyword, the code still contributes zero sub-tags
for the tag, while the claim's normalization finds the file. -/
theorem subtag_filename_space_cex :
    normKey "Spring Boot" = "spring_boot" ∧
    claimedFileStem "Spring Boot" = "springboot" ∧
    (([("springboot.json", Json.obj [("keywords", Json.arr
        [Json.obj [("word", Json.str "DI"), ("description", Json.str "d"),
          ("relevance_level", Json.num 5 0)]])])] : List (String × Json)).lookup
      (claimedFileStem "Spring Boot" ++ ".json")).isSome = true ∧
    _extract_sub_tags
        [("springboot.json", Json.obj [("keywords", Json.arr
          [Json.obj [("word", Json.str "DI"), ("description", Json.str "d"),
            ("relevance_level", Json.num 5 0)]])])]
        "Spring Boot" = [] ∧
    extractKws "Spring Boot"
        [Json.obj [("word", Json.str "DI"), ("description", Json.str "d"),
          ("relevance_level", Json.num 5 0)]] =
      some [⟨Json.str "DI", Json.str "d", Json.num 5 0, "Spring Boot"⟩] :=
  ⟨rfl, rfl, rfl, rfl, rfl⟩

/-- The empty string is `isEmpty`. -/
theorem isEmpty_empty_string : ("" : String).isEmpty = true := rfl

/-- A string whose `isEmpty` is false is not the empty string. -/
theorem ne_empty_of_isEmpty_false {s : String} (h : s.isEmpty = false) : s ≠ "" := by
  intro he
  subst he
  exact absurd h (by decide)

/-- C9 (amended): the research summary is the synthesized answer when that is
non-empty; otherwise, when results exist and the joined leading snippets
(200 characters each, top 3 results) are non-empty, it is that concatenation;
otherwise — no results, or (the amendment) an empty concatenation — it is the
generic placeholder naming the tag.  Links are at most 5 pairs, each the
title/url of a supplied result with both fields non-empty. -/
theorem research_summary_links_spec (tag : String) (resp : SearchResponse) :
    (_research_technology tag resp).name = tag ∧
    (resp.answer ≠ "" → (_research_technology tag resp).summary = resp.answer) ∧
    (resp.answer = "" → resp.results ≠ [] →
      String.intercalate " " ((resp.results.take 3).map fun r => r.content.take 200) ≠ "" →
      (_research_technology tag resp).summary =
        String.intercalate " " ((resp.results.take 3).map fun r => r.content.take 200)) ∧
    (resp.answer = "" →
      (resp.results = [] ∨
        String.intercalate " " ((resp.results.take 3).map fun r => r.content.take 200) = "") →
      (_research_technology tag resp).summary =
        tag ++ "に関するプログラミング技術の情報です。") ∧
    (_research_technology tag resp).links.length ≤ 5 ∧
    (∀ p ∈ (_research_technology tag resp).links, p.1 ≠ "" ∧ p.2 ≠ "" ∧
      ∃ r ∈ resp.results, r.title = p.1 ∧ r.url = p.2) := by
  refine ⟨rfl, ?_, ?_, ?_, ?_, ?_⟩
  · intro hans
    simp [_research_technology, str_isEmpty_eq_false hans]
  · intro hans hres hjoin
    rw [List.map_take] at hjoin
    simp [_research_technology, hans, isEmpty_empty_string, list_isEmpty_eq_false hres,
      str_isEmpty_eq_false hjoin]
  · intro hans hcase
    rcases hcase with hres | hjoin
    · simp [_research_technology, hans, hres, isEmpty_empty_string]
    · rw [List.map_take] at hjoin
      cases hres : resp.results.isEmpty <;>
        simp [_research_technology, hans, hjoin, hres, isEmpty_empty_string]
  · calc (_research_technology tag resp).links.length
        = ((resp.results.take 5).filter fun r => !r.title.isEmpty ∧ !r.url.isEmpty).length :=
          List.length_map _ _
      _ ≤ (resp.results.take 5).length := List.length_filter_le _ _
      _ ≤ 5 := List.length_take_le 5 resp.results
  · intro p hp
    simp only [_research_technology, List.mem_map, List.mem_filter] at hp
    obtain ⟨r, ⟨hrt, hpr⟩, rfl⟩ := hp
    simp only [decide_eq_true_eq, Bool.and_eq_true] at hpr
    obtain ⟨ht, hu⟩ := hpr
    exact ⟨ne_empty_of_isEmpty_false (by simpa using ht),
      ne_empty_of_isEmpty_false (by simpa using hu),
      r, List.mem_of_mem_take hrt, rfl, rfl⟩

/-- Witness for C9: a supplied answer becomes the summary, with a single
well-formed link. -/
theorem research_summary_links_spec_witness :
    (_research_technology "React" ⟨"An answer", [⟨"t", "u", "c"⟩]⟩).summary = "An answer" ∧
    (_research_technology "React" ⟨"An answer", [⟨"t", "u", "c"⟩]⟩).links.length ≤ 5 := by
  have h := research_summary_links_spec "React" ⟨"An answer", [⟨"t", "u", "c"⟩]⟩
  exact ⟨h.2.1 (by decide), h.2.2.2.2.1⟩

set_option maxRecDepth 8000 in
/-- Counterexample for C9 as stated: with an empty answer and one result
whose snippet is empty, the claim's rule makes the summary the (empty)
concatenation, but the code falls through to the generic placeholder. -/
theorem research_summary_placeholder_cex :
    (_research_technology "React" ⟨"", [⟨"t", "u", ""⟩]⟩).summary =
      "Reactに関するプログラミング技術の情報です。" ∧
    claimedSummary "React" ⟨"", [⟨"t", "u", ""⟩]⟩ = "" ∧
    (_research_technology "React" ⟨"", [⟨"t", "u", ""⟩]⟩).summary ≠
      claimedSummary "React" ⟨"", [⟨"t", "u", ""⟩]⟩ :=
  ⟨rfl, rfl, by
    have e1 : (_research_technology "React" ⟨"", [⟨"t", "u", ""⟩]⟩).summary =
        "Reactに関するプログラミング技術の情報です。" := rfl
    have e2 : claimedSummary "React" ⟨"", [⟨"t", "u", ""⟩]⟩ = "" := rfl
    rw [e1, e2]
    intro h
    exact absurd h (by decide)⟩

/-- The chunk-consuming loop yields only non-terminal events. -/
theorem streamLoop_nonterminal :
    ∀ (cs : List String) (b : String) (last : Json),
      ∀ e ∈ streamLoop cs b last, isTerminalEv e = false := by
  intro cs
  induction cs with
  | nil => intro b last e he; simp [streamLoop] at he
  | cons c rest ih =>
    intro b last e he
    simp only [streamLoop] at he
    split at he
    · simp only [List.mem_cons] at he
      rcases he with rfl | rfl | he
      · rfl
      · rfl
      · exact ih _ _ e he
    · simp only [List.mem_cons] at he
      rcases he with rfl | he
      · rfl
      · exact ih _ _ e he

/-- The streaming generator is the loop's events followed by the single
terminal event. -/
theorem stream_eq_append (context : List TechnologyContext) (stateError : Option String)
    (chunks : List String) (exc : Option String) (hctx : context ≠ []) :
    roadmap_agent_stream context stateError chunks exc =
      streamLoop chunks "" (Json.obj []) ++
        [terminalEvent context stateError chunks exc] := by
  simp only [roadmap_agent_stream, terminalEvent, list_isEmpty_eq_false hctx]
  cases exc with
  | some e => simp
  | none =>
    cases htr : (_parse_roadmap_response (String.join chunks)).truthy with
    | false => simp [htr]
    | true =>
      cases hlen : technologiesLen (_parse_roadmap_response (String.join chunks)) with
      | error e => simp [htr, hlen]
      | ok n => simp [htr, hlen]

/-- The terminal event is terminal. -/
theorem terminalEvent_terminal (context : List TechnologyContext)
    (stateError : Option String) (chunks : List String) (exc : Option String) :
    isTerminalEv (terminalEvent context stateError chunks exc) = true := by
  simp only [terminalEvent]
  split
  · rfl
  · cases exc with
    | some e => rfl
    | none =>
      cases (_parse_roadmap_response (String.join chunks)).truthy
      · rfl
      · simp only [Bool.not_true]
        cases technologiesLen (_parse_roadmap_response (String.join chunks)) <;> rfl

/-- A terminal event carries no progress roadmap. -/
theorem progressRoadmaps_terminal {e : StreamEvent} (h : isTerminalEv e = true) :
    progressRoadmaps [e] = [] := by
  cases e <;> simp_all [isTerminalEv, progressRoadmaps]

/-- C4 (amended): in every streaming execution the event sequence is
non-empty, ends with the single terminal event, and all events before it are
`chunk` or `progress` events.  The terminal event is the precondition error
when no research context is available; an error when the generation raised;
otherwise it is determined by the parse of the full accumulated buffer — a
`complete` event carrying that parse when it is truthy and its technologies
count is readable, and an error event otherwise (which includes buffers that
parse to falsy or non-object JSON, the amendment). -/
theorem stream_event_order_spec (context : List TechnologyContext)
    (stateError : Option String) (chunks : List String) (exc : Option String) :
    roadmap_agent_stream context stateError chunks exc ≠ [] ∧
    (roadmap_agent_stream context stateError chunks exc).getLast? =
      some (terminalEvent context stateError chunks exc) ∧
    isTerminalEv (terminalEvent context stateError chunks exc) = true ∧
    ∀ e ∈ (roadmap_agent_stream context stateError chunks exc).dropLast,
      isTerminalEv e = false := by
  by_cases hctx : context = []
  · subst hctx
    refine ⟨by simp [roadmap_agent_stream], ?_, terminalEvent_terminal _ _ _ _, ?_⟩
    · simp [roadmap_agent_stream, terminalEvent]
    · intro e he
      simp [roadmap_agent_stream] at he
  · rw [stream_eq_append context stateError chunks exc hctx]
    refine ⟨by simp, ?_, terminalEvent_terminal _ _ _ _, ?_⟩
    · exact List.getLast?_concat _
    · intro e he
      rw [List.dropLast_concat] at he
      exact streamLoop_nonterminal chunks "" (Json.obj []) e he

/-- Witness for C4 at a concrete run that completes: the terminal event is
last, and the preceding chunk event is not terminal. -/
theorem stream_event_order_spec_witness :
    (roadmap_agent_stream [⟨"React", "s", []⟩] none
        ["\x7b\"technologies\": []\x7d"] none).getLast? =
      some (terminalEvent [⟨"React", "s", []⟩] none
        ["\x7b\"technologies\": []\x7d"] none) ∧
    isTerminalEv (StreamEvent.chunk "\x7b\"technologies\": []\x7d") = false := by
  have h := stream_event_order_spec [⟨"React", "s", []⟩] none
    ["\x7b\"technologies\": []\x7d"] none
  refine ⟨h.2.1, h.2.2.2 (StreamEvent.chunk "\x7b\"technologies\": []\x7d") ?_⟩
  have e : (roadmap_agent_stream [⟨"React", "s", []⟩] none
      ["\x7b\"technologies\": []\x7d"] none).dropLast =
      [StreamEvent.chunk "\x7b\"technologies\": []\x7d",
       StreamEvent.progress (Json.obj [("technologies", Json.arr [])])] := rfl
  rw [e]
  exact List.mem_cons_self _ _

/-- Counterexample for C4 as stated: for the chunk sequence `["\x7b\x7d"]`
the final buffer *can* be parsed into valid JSON (the empty object), and
research context is available, yet the terminal event is an error rather
than a `complete` event. -/
theorem stream_error_despite_valid_json_cex :
    loads "\x7b\x7d" = some (Json.obj []) ∧
    roadmap_agent_stream [⟨"React", "s", []⟩] none ["\x7b\x7d"] none =
      [StreamEvent.chunk "\x7b\x7d",
       StreamEvent.error "Failed to parse roadmap JSON from response"] :=
  ⟨rfl, rfl⟩

/-- A chunk event contributes no progress roadmap. -/
theorem progressRoadmaps_chunk (c : String) (l : List StreamEvent) :
    progressRoadmaps (StreamEvent.chunk c :: l) = progressRoadmaps l := by
  simp [progressRoadmaps]

/-- A progress event contributes its roadmap. -/
theorem progressRoadmaps_progress (j : Json) (l : List StreamEvent) :
    progressRoadmaps (StreamEvent.progress j :: l) = j :: progressRoadmaps l := by
  simp [progressRoadmaps]

/-- The loop's progress roadmaps are exactly the deduplicated truthy
snapshots of the successive buffers. -/
theorem progressRoadmaps_streamLoop :
    ∀ (cs : List String) (b : String) (last : Json),
      progressRoadmaps (streamLoop cs b last) =
        dedupSnapshots last (prefixBuffers b cs) := by
  intro cs
  induction cs with
  | nil => intro b last; rfl
  | cons c rest ih =>
    intro b last
    simp only [streamLoop, prefixBuffers, dedupSnapshots]
    split
    · rw [progressRoadmaps_chunk, progressRoadmaps_progress, ih]
    · rw [progressRoadmaps_chunk, ih]

/-- Every kept snapshot is truthy. -/
theorem dedupSnapshots_truthy :
    ∀ (bufs : List String) (last : Json) (j : Json),
      j ∈ dedupSnapshots last bufs → j.truthy = true := by
  intro bufs
  induction bufs with
  | nil => intro last j h; simp [dedupSnapshots] at h
  | cons buf rest ih =>
    intro last j h
    simp only [dedupSnapshots] at h
    split at h
    · simp only [List.mem_cons] at h
      rcases h with rfl | h
      · rename_i hcond
        exact hcond.1
      · exact ih _ j h
    · exact ih _ j h

/-- C2 (amended): the `progress` roadmaps of a streaming run are exactly the
incremental parses of the successive accumulated buffers, filtered to those
that are truthy and differ by structural (value) equality — not string
equality — from the previously emitted snapshot; every emitted snapshot is
truthy, though not necessarily an object (the amendment: the whole-buffer
fallback can yield any JSON value).  The incremental parse itself takes the
first parsable brace-balanced span from the first left brace, then falls
back to the whole buffer, then to the fenced-block pattern. -/
theorem stream_progress_dedup_spec (context : List TechnologyContext)
    (stateError : Option String) (chunks : List String) (exc : Option String)
    (hctx : context ≠ []) :
    progressRoadmaps (roadmap_agent_stream context stateError chunks exc) =
      dedupSnapshots (Json.obj []) (prefixBuffers "" chunks) ∧
    (∀ j ∈ progressRoadmaps (roadmap_agent_stream context stateError chunks exc),
      j.truthy = true) ∧
    (∀ s j, firstParse (scanSpans s.toList 0 none) = some j →
      _try_parse_partial_json s = j) ∧
    (∀ s j, firstParse (scanSpans s.toList 0 none) = none → loadsL s.toList = some j →
      _try_parse_partial_json s = j) ∧
    (∀ s, firstParse (scanSpans s.toList 0 none) = none → loadsL s.toList = none →
      _try_parse_partial_json s =
        ((fencedSearchBrace s.toList).bind loadsL).getD (Json.obj [])) := by
  have hmain : progressRoadmaps (roadmap_agent_stream context stateError chunks exc) =
      dedupSnapshots (Json.obj []) (prefixBuffers "" chunks) := by
    rw [stream_eq_append context stateError chunks exc hctx]
    have happ : progressRoadmaps (streamLoop chunks "" (Json.obj []) ++
        [terminalEvent context stateError chunks exc]) =
        progressRoadmaps (streamLoop chunks "" (Json.obj [])) ++
          progressRoadmaps [terminalEvent context stateError chunks exc] := by
      simp [progressRoadmaps]
    rw [happ, progressRoadmaps_terminal (terminalEvent_terminal _ _ _ _),
      List.append_nil]
    exact progressRoadmaps_streamLoop chunks "" (Json.obj [])
  refine ⟨hmain, ?_, ?_, ?_, ?_⟩
  · intro j hj
    rw [hmain] at hj
    exact dedupSnapshots_truthy _ _ j hj
  · intro s j h
    simp only [String.toList] at h
    simp only [_try_parse_partial_json, String.toList, h]
  · intro s j h1 h2
    simp only [String.toList] at h1 h2
    simp only [_try_parse_partial_json, String.toList, h1, h2]
  · intro s h1 h2
    simp only [String.toList] at h1 h2
    simp only [_try_parse_partial_json, String.toList, h1, h2]
    cases hf : (fencedSearchBrace s.data).bind loadsL <;> simp [hf]

/-- Witness for C2 at a concrete run: one truthy snapshot is emitted for the
buffer `"\x7b\"a\": 1\x7d"` and deduplication retains it. -/
theorem stream_progress_dedup_spec_witness :
    progressRoadmaps (roadmap_agent_stream [⟨"React", "s", []⟩] none
        ["\x7b\"a\"", ": 1\x7d"] none) =
      dedupSnapshots (Json.obj []) (prefixBuffers "" ["\x7b\"a\"", ": 1\x7d"]) ∧
    _try_parse_partial_json "[1, 2]" = Json.arr [Json.num 1 0, Json.num 2 0] := by
  have h := stream_progress_dedup_spec [⟨"React", "s", []⟩] none
    ["\x7b\"a\"", ": 1\x7d"] none (by decide)
  exact ⟨h.1, h.2.2.2.1 "[1, 2]" (Json.arr [Json.num 1 0, Json.num 2 0]) rfl rfl⟩

/-- Counterexample for C2 as stated: on the buffer `"[1, 2]"` the
whole-buffer fallback parses a JSON array, which is truthy and new, so a
progress event carrying a non-object value is emitted — refuting "a progress
event is emitted if and only if the resulting parse is a non-empty JSON
object". -/
theorem progress_value_not_object_cex :
    roadmap_agent_stream [⟨"React", "s", []⟩] none ["[1, 2]"] none =
      [StreamEvent.chunk "[1, 2]",
       StreamEvent.progress (Json.arr [Json.num 1 0, Json.num 2 0]),
       StreamEvent.error "Roadmap agent error: 'list' object has no attribute 'get'"] ∧
    Json.isObj (Json.arr [Json.num 1 0, Json.num 2 0]) = false :=
  ⟨rfl, rfl⟩

end Roadmap
